import Mathlib

/-!
Shallow embedding of the warehouse-building transform stage of the
Baseball_Project repository (files 1.3_Transform.py and 1.4_InitializeDW.py),
together with theorems settling the frozen claims about it.

Conventions of the embedding:
* SQLite values that matter to the claims are modelled by `Value`
  (integer, text, NULL); typed columns that are always numeric in the data
  (run counts, counting stats) are modelled directly as `Int`.
* A raw store (as seen by the Union Combiner) is an association list from
  table name to an untyped table (column names plus rows of values).
* The warehouse store (as seen by `build_data_warehouse`) is a structure of
  optional typed tables; `none` means the table is absent from the store.
* Python `datetime.date` objects are represented by their proleptic
  Gregorian ordinal (`date.toordinal()`, 0001-01-01 = 1); the civil-calendar
  conversion used for year/month/day mirrors the standard algorithm.
-/

namespace Baseball

/-- An SQLite storage value: integer, text, or NULL. -/
inductive Value where
  | vInt (n : Int)
  | vStr (s : String)
  | vNull
deriving DecidableEq

/-- An untyped relation: ordered column names and rows of values
(as read back by PRAGMA table_info and SELECT in 1.3_Transform.py). -/
structure TableU where
  cols : List String
  rows : List (List Value)
deriving DecidableEq

/-- The raw store: an ordered catalog of named tables. -/
abbrev DBu := List (String × TableU)

/-- Drop a table by name (DROP TABLE IF EXISTS). -/
def dropTableU (name : String) (db : DBu) : DBu :=
  db.filter (fun p => p.1 != name)

/-- The numeric value of a digit string (most significant first). -/
def digitsVal (l : List Char) : Nat :=
  l.foldl (fun acc c => acc * 10 + (c.toNat - 48)) 0

/-- The regex test of 1.3_Transform.py line 19:
re.match of four decimal digits followed by at least one further character.
(The regex dot-vs-newline distinction is abstracted away: table names are
assumed newline-free.) -/
def matchesYearPat (name : String) : Bool :=
  5 ≤ name.length && (name.take 4).toList.all Char.isDigit

/-- The year literal spliced into the union query: the integer read from the
first four characters of the table name (1.3_Transform.py line 40). -/
def yearOf (name : String) : Int :=
  (digitsVal (name.take 4).toList : Int)

/-- Append a name to the group of a given grouping key, creating the group at
the end when it is new — Python dict insertion-order semantics of lines 20-23
of 1.3_Transform.py. -/
def addToGroups (gs : List (String × List String)) (key name : String) :
    List (String × List String) :=
  if gs.any (fun g => g.1 == key) then
    gs.map (fun g => if g.1 == key then (g.1, g.2 ++ [name]) else g)
  else
    gs ++ [(key, [name])]

/-- Group the catalog's table names by the part after the 4-digit year
(1.3_Transform.py lines 17-23). -/
def suffixGroups (names : List String) : List (String × List String) :=
  names.foldl
    (fun gs n => if matchesYearPat n then addToGroups gs (n.drop 4) n else gs)
    []

/-- The rows of a named table, empty when the table is absent. -/
def rowsOf (name : String) (db : DBu) : List (List Value) :=
  match List.lookup name db with
  | some t => t.rows
  | none => []

/-- The column list of a named table, empty when the table is absent. -/
def colsOf (name : String) (db : DBu) : List String :=
  match List.lookup name db with
  | some t => t.cols
  | none => []

/-- The rows of the UNION ALL of the group members, each row extended with
the source_year literal parsed from its own table's name
(1.3_Transform.py lines 38-57). -/
def combineGroupRows (db : DBu) (members : List String) : List (List Value) :=
  members.flatMap (fun t => (rowsOf t db).map (fun r => r ++ [Value.vInt (yearOf t)]))

/-- Column list of the combined table: CREATE TABLE AS takes its column names
from the first SELECT of the union. -/
def combineGroupCols (db : DBu) (members : List String) : List String :=
  match members with
  | [] => ["source_year"]
  | t :: _ => colsOf t db ++ ["source_year"]

/-- Process one suffix group: skip groups with fewer than two members,
otherwise drop any existing combined table and create it afresh from the
union of the members (1.3_Transform.py lines 26-57). -/
def processGroup (db : DBu) (g : String × List String) : DBu :=
  if g.2.length < 2 then db
  else
    let db' := dropTableU g.1 db
    db' ++ [(g.1, ⟨combineGroupCols db' g.2, combineGroupRows db' g.2⟩)]

/-- combine_tables_with_union of 1.3_Transform.py: group the current table
names, then process each group in order. -/
def combineTables (db : DBu) : DBu :=
  (suffixGroups (db.map (fun p => p.1))).foldl processGroup db

/-! Proleptic-Gregorian calendar arithmetic, mirroring Python's `datetime.date`.
A date is represented by its ordinal (`date.toordinal()`, 0001-01-01 = 1). -/

/-- `date(y, m, d).toordinal()`: days-from-civil (standard era/day-of-year
algorithm) shifted so that 0001-01-01 has ordinal 1. -/
def toOrdinal (y m d : Nat) : Nat :=
  let yc := if m ≤ 2 then y - 1 else y
  let era := yc / 400
  let yoe := yc % 400
  let doy := (153 * (if 2 < m then m - 3 else m + 9) + 2) / 5 + d - 1
  let doe := yoe * 365 + yoe / 4 - yoe / 100 + doy
  era * 146097 + doe - 305

/-- Inverse conversion: ordinal to (year, month, day) (civil-from-days). -/
def toYMD (ord : Nat) : Nat × Nat × Nat :=
  let z := ord + 305
  let era := z / 146097
  let doe := z % 146097
  let yoe := (doe - doe / 1460 + doe / 36524 - doe / 146096) / 365
  let doy := doe - (365 * yoe + yoe / 4 - yoe / 100)
  let mp := (5 * doy + 2) / 153
  let d := doy - (153 * mp + 2) / 5 + 1
  let m := if mp < 10 then mp + 3 else mp - 9
  let y := yoe + era * 400 + (if m ≤ 2 then 1 else 0)
  (y, m, d)

/-- `date.weekday()`: 0 = Monday, computed as in CPython from the ordinal. -/
def weekdayOf (ord : Nat) : Nat := (ord + 6) % 7

/-- 2024-01-01, a real-world Monday: the anchor tying weekday numbers to
weekday names. -/
def knownMondayOrd : Nat := toOrdinal 2024 1 1

/-- A date is a Monday iff it falls a whole number of weeks from the known
Monday 2024-01-01. -/
def isMonday (ord : Nat) : Prop := ord % 7 = knownMondayOrd % 7

instance (ord : Nat) : Decidable (isMonday ord) := by
  unfold isMonday; infer_instance

/-- The Monday starting ISO week 1 of a year (CPython _isoweek1monday). -/
def isoweek1Monday (y : Nat) : Nat :=
  let firstday := toOrdinal y 1 1
  let firstweekday := (firstday + 6) % 7
  let week1monday := firstday - firstweekday
  if 3 < firstweekday then week1monday + 7 else week1monday

/-- `date.isocalendar()[1]`: the ISO week number of a date. -/
def isoWeek (ord : Nat) : Nat :=
  let y := (toYMD ord).1
  let w1 := isoweek1Monday y
  if ord < w1 then (ord - isoweek1Monday (y - 1)) / 7 + 1
  else
    let wk := (ord - w1) / 7
    if 52 ≤ wk && isoweek1Monday (y + 1) ≤ ord then 1 else wk + 1

/-! Typed model of the source relations consumed by 1.4_InitializeDW.py.
Each structure lists the columns that file reads from the relation. -/

/-- A row of the combined `allplayers` roster relation. -/
structure AllPlayersRow where
  id : String
  first : String
  last : String
  bat : String
  throw : String
  team : String
deriving DecidableEq

/-- A row of `teamstats` (only its `team` column is read by the warehouse). -/
structure TeamStatsRow where
  team : String
deriving DecidableEq

/-- A row of `fielding` (only its `team` column is read by the warehouse). -/
structure FieldingRow where
  team : String
deriving DecidableEq

/-- A row of the combined `gameinfo` relation: every column the warehouse
stage reads. The `date` column keeps SQLite's dynamic typing (`Value`)
because the DimDate stage branches on it being an integer, a string, or
NULL; the run totals are numeric in the data and typed `Int`. -/
structure GameInfoRow where
  gid : String
  date : Value
  season : Int
  site : String
  gametype : String
  daynight : String
  usedh : String
  innings : Int
  tiebreaker : String
  htbf : String
  timeofgame : Int
  attendance : Int
  fieldcond : String
  precip : String
  sky : String
  temp : Int
  winddir : String
  windspeed : Int
  forfeit : String
  suspend : String
  vruns : Int
  hruns : Int
  wteam : String
  lteam : String
  visteam : String
  hometeam : String
deriving DecidableEq

/-- A row of the combined `batting` relation; the role flags are nullable. -/
structure BattingRow where
  gid : String
  id : String
  team : String
  b_pa : Int
  b_ab : Int
  b_r : Int
  b_h : Int
  b_d : Int
  b_t : Int
  b_hr : Int
  b_rbi : Int
  b_sh : Int
  b_sf : Int
  b_hbp : Int
  b_w : Int
  b_iw : Int
  b_k : Int
  b_sb : Int
  b_cs : Int
  b_gdp : Int
  b_xi : Int
  b_roe : Int
  dh : Option Int
  ph : Option Int
  pr : Option Int
deriving DecidableEq

/-- A row of the combined `pitching` relation; the decision flags are
nullable. -/
structure PitchingRow where
  gid : String
  id : String
  team : String
  p_ipouts : Int
  p_bfp : Int
  p_h : Int
  p_r : Int
  p_er : Int
  p_w : Int
  p_iw : Int
  p_k : Int
  p_hbp : Int
  p_wp : Int
  p_bk : Int
  p_sh : Int
  p_sf : Int
  p_hr : Int
  wp : Option Int
  lp : Option Int
  save : Option Int
deriving DecidableEq

/-! Produced warehouse tables. -/

/-- A row of DimPlayer (SELECT DISTINCT projection of allplayers). -/
structure DimPlayerRow where
  player_id : String
  player_name : String
  first_name : String
  last_name : String
  batting_hand : String
  throwing_hand : String
deriving DecidableEq

/-- A row of DimGame (full projection of gameinfo with renamed columns). -/
structure DimGameRow where
  game_id : String
  game_date : Value
  season : Int
  ballpark : String
  gametype : String
  daynight : String
  usedh : String
  scheduled_innings : Int
  tiebreaker : String
  home_team_bat_first : String
  game_duration_minutes : Int
  attendance : Int
  field_condition : String
  precipitation : String
  sky_conditions : String
  temperature : Int
  wind_direction : String
  wind_speed : Int
  forfeit : String
  suspended : String
  visitor_runs : Int
  home_runs : Int
  winning_team : String
  losing_team : String
  visiting_team_id : String
  home_team_id : String
deriving DecidableEq

/-- A row of DimDate. The TEXT `date_id`/`date` columns (strftime of the
current date) are represented by the date's ordinal, a faithful stand-in
since the ISO rendering of valid dates is injective. -/
structure DateRow where
  date_id : Nat
  date : Nat
  year : Nat
  month : Nat
  day : Nat
  day_of_week : Nat
  week_of_year : Nat
  season_period : String
deriving DecidableEq

/-- A row of FactBatting. -/
structure FactBattingRow where
  game_id : String
  player_id : String
  team_id : String
  game_date : Value
  plate_appearances : Int
  at_bats : Int
  runs : Int
  hits : Int
  doubles : Int
  triples : Int
  home_runs : Int
  rbi : Int
  sacrifice_hits : Int
  sacrifice_flies : Int
  hit_by_pitch : Int
  walks : Int
  intentional_walks : Int
  strikeouts : Int
  stolen_bases : Int
  caught_stealing : Int
  grounded_into_double_plays : Int
  catcher_interference : Int
  reached_on_error : Int
  is_dh : Int
  is_pinch_hitter : Int
  is_pinch_runner : Int
deriving DecidableEq

/-- A row of FactPitching. -/
structure FactPitchingRow where
  game_id : String
  player_id : String
  team_id : String
  game_date : Value
  outs_recorded : Int
  batters_faced : Int
  hits_allowed : Int
  runs_allowed : Int
  earned_runs : Int
  walks_allowed : Int
  intentional_walks_allowed : Int
  strikeouts : Int
  hit_batters : Int
  wild_pitches : Int
  balks : Int
  sacrifice_hits_allowed : Int
  sacrifice_flies_allowed : Int
  home_runs_allowed : Int
  is_winning_pitcher : Int
  is_losing_pitcher : Int
  is_save : Int
deriving DecidableEq

/-- A row of FactGameOutcomes. -/
structure FactGameOutcomesRow where
  game_id : String
  game_date : Value
  season : Int
  visiting_team_id : String
  home_team_id : String
  visiting_runs : Int
  home_runs : Int
  visiting_win : Int
  home_win : Int
  tie : Int
  game_duration_minutes : Int
  attendance : Int
deriving DecidableEq

/-- The warehouse store: each field is an optional table, `none` meaning the
table is absent from the SQLite file. DimTeam is its single `team_id`
column. -/
structure DB where
  gameinfo : Option (List GameInfoRow)
  batting : Option (List BattingRow)
  pitching : Option (List PitchingRow)
  allplayers : Option (List AllPlayersRow)
  teamstats : Option (List TeamStatsRow)
  fielding : Option (List FieldingRow)
  dimPlayer : Option (List DimPlayerRow)
  dimTeam : Option (List String)
  dimGame : Option (List DimGameRow)
  dimDate : Option (List DateRow)
  factBatting : Option (List FactBattingRow)
  factPitching : Option (List FactPitchingRow)
  factGameOutcomes : Option (List FactGameOutcomesRow)
deriving DecidableEq

/-! The warehouse build of 1.4_InitializeDW.py. -/

/-- _verify_source_tables: the names of the required source tables that are
absent, accumulated in the order of the required list. -/
def missingTables (db : DB) : List String :=
  (if db.gameinfo.isNone then ["gameinfo"] else []) ++
  (if db.batting.isNone then ["batting"] else []) ++
  (if db.pitching.isNone then ["pitching"] else []) ++
  (if db.allplayers.isNone then ["allplayers"] else []) ++
  (if db.teamstats.isNone then ["teamstats"] else []) ++
  (if db.fielding.isNone then ["fielding"] else [])

/-- The row-level projection behind CREATE TABLE DimPlayer. -/
def projPlayer (a : AllPlayersRow) : DimPlayerRow :=
  { player_id := a.id
    player_name := a.first ++ " " ++ a.last
    first_name := a.first
    last_name := a.last
    batting_hand := a.bat
    throwing_hand := a.throw }

/-- DimPlayer: SELECT DISTINCT of the projected roster rows (whole-row
deduplication, first occurrences kept). -/
def dimPlayerRows (ap : List AllPlayersRow) : List DimPlayerRow :=
  (ap.map projPlayer).dedup

/-- DimTeam: SELECT DISTINCT team_id over the 7-way UNION of team columns
drawn from the six source relations. -/
def dimTeamRows (ap : List AllPlayersRow) (gi : List GameInfoRow)
    (ts : List TeamStatsRow) (bat : List BattingRow) (pit : List PitchingRow)
    (fld : List FieldingRow) : List String :=
  (ap.map (fun a => a.team) ++ gi.map (fun g => g.visteam) ++
    gi.map (fun g => g.hometeam) ++ ts.map (fun t => t.team) ++
    bat.map (fun b => b.team) ++ pit.map (fun p => p.team) ++
    fld.map (fun f => f.team)).dedup

/-- The row-level projection behind CREATE TABLE DimGame. -/
def projGame (g : GameInfoRow) : DimGameRow :=
  { game_id := g.gid
    game_date := g.date
    season := g.season
    ballpark := g.site
    gametype := g.gametype
    daynight := g.daynight
    usedh := g.usedh
    scheduled_innings := g.innings
    tiebreaker := g.tiebreaker
    home_team_bat_first := g.htbf
    game_duration_minutes := g.timeofgame
    attendance := g.attendance
    field_condition := g.fieldcond
    precipitation := g.precip
    sky_conditions := g.sky
    temperature := g.temp
    wind_direction := g.winddir
    wind_speed := g.windspeed
    forfeit := g.forfeit
    suspended := g.suspend
    visitor_runs := g.vruns
    home_runs := g.hruns
    winning_team := g.wteam
    losing_team := g.lteam
    visiting_team_id := g.visteam
    home_team_id := g.hometeam }

/-- DimGame: one row per gameinfo row (no DISTINCT). -/
def dimGameRows (gi : List GameInfoRow) : List DimGameRow :=
  gi.map projGame

/-! The DimDate stage. -/

/-- SQLite's cross-type ordering on non-NULL storage values: integers sort
before text, integers numerically, text lexicographically. -/
def valueLT (a b : Value) : Bool :=
  match a, b with
  | Value.vInt x, Value.vInt y => x < y
  | Value.vInt _, Value.vStr _ => true
  | Value.vStr _, Value.vInt _ => false
  | Value.vStr x, Value.vStr y => x < y
  | _, _ => false

/-- SELECT MIN(date) FROM gameinfo: NULLs are ignored; NULL when no non-NULL
value exists. -/
def minDateVal (gi : List GameInfoRow) : Value :=
  match (gi.map (fun g => g.date)).filter (fun v => v != Value.vNull) with
  | [] => Value.vNull
  | v :: rest => rest.foldl (fun acc x => if valueLT x acc then x else acc) v

/-- SELECT MAX(date) FROM gameinfo. -/
def maxDateVal (gi : List GameInfoRow) : Value :=
  match (gi.map (fun g => g.date)).filter (fun v => v != Value.vNull) with
  | [] => Value.vNull
  | v :: rest => rest.foldl (fun acc x => if valueLT acc x then x else acc) v

/-- The number of days in a month of the proleptic Gregorian calendar. -/
def daysInMonth (y m : Nat) : Nat :=
  if m = 2 then (if y % 4 = 0 && (y % 100 != 0 || y % 400 = 0) then 29 else 28)
  else if m = 4 || m = 6 || m = 9 || m = 11 then 30
  else 31

/-- Split a character list at every dash (the dash-separation behind the
expected date format; same semantics as Python's split on a dash). -/
def splitDash : List Char → List (List Char)
  | [] => [[]]
  | c :: rest =>
    let r := splitDash rest
    if c = '-' then [] :: r
    else
      match r with
      | [] => [[c]]
      | h :: t => (c :: h) :: t

/-- Whether a field is a digit run of a length the date format accepts. -/
def digitField (l : List Char) (maxLen : Nat) : Bool :=
  1 ≤ l.length && l.length ≤ maxLen && l.all Char.isDigit

/-- datetime.strptime(s, the dash-separated year-month-day format): three
dash-separated digit fields (up to 4/2/2 digits) forming a valid in-range
date, returned as its ordinal; `none` models the ValueError raised
otherwise. -/
def parseISO (s : String) : Option Nat :=
  match splitDash s.toList with
  | [ys, ms, ds] =>
    if digitField ys 4 && digitField ms 2 && digitField ds 2 then
      let y := digitsVal ys
      let m := digitsVal ms
      let d := digitsVal ds
      if 1 ≤ y && 1 ≤ m && m ≤ 12 && 1 ≤ d && d ≤ daysInMonth y m
      then some (toOrdinal y m d)
      else none
    else none
  | _ => none

/-- datetime.fromtimestamp(n).strftime of the ISO format, then re-parsed:
an epoch-seconds integer converted to its calendar day's ordinal
(UTC; the host-timezone dependence of fromtimestamp is abstracted away). -/
def tsToOrd (n : Int) : Nat :=
  (719163 + Int.fdiv n 86400).toNat

/-- One generated DimDate row for the date with the given ordinal
(the loop body of lines 198-211 of 1.4_InitializeDW.py). -/
def mkDateRow (ord : Nat) : DateRow :=
  { date_id := ord
    date := ord
    year := (toYMD ord).1
    month := (toYMD ord).2.1
    day := (toYMD ord).2.2
    day_of_week := weekdayOf ord
    week_of_year := isoWeek ord
    season_period :=
      if 3 ≤ (toYMD ord).2.1 && (toYMD ord).2.1 ≤ 10 then "Regular"
      else "Offseason" }

/-- The per-day insertion loop: one row per calendar day while
current_date ≤ end_date. -/
def dateLoop (cur last : Nat) : List DateRow :=
  if h : cur ≤ last then mkDateRow cur :: dateLoop (cur + 1) last else []
termination_by last + 1 - cur
decreasing_by omega

/-- Outcome of the DimDate part of _create_dimension_tables.
`warned` is the caught-ValueError early return (warning printed, no DimDate
table, the calling build continues); the two fatal outcomes model the
uncaught TypeError/ValueError paths that propagate into
build_data_warehouse's catch-all and abort the remaining stages, either
before CREATE TABLE DimDate ran (no table) or after (an empty table). -/
inductive DateStage where
  | ok (rows : List DateRow)
  | warned
  | fatalNoTable
  | fatalEmptyTable
deriving DecidableEq

/-- The DimDate logic of lines 160-211 of 1.4_InitializeDW.py.
The aggregate min/max query always returns one row, so the
"Could not determine date range" guard only fires when the query itself
errors; with the gameinfo table present (guaranteed by the earlier source
check) that guard is unreachable and is not modelled as a separate outcome.
* MIN NULL (empty or all-NULL column): strptime(None, ...) raises TypeError
  inside the try block, which only catches ValueError — fatal, no table.
* MIN an integer: both bounds go through fromtimestamp; a non-integer MAX
  raises TypeError there — fatal, no table.
* MIN an unparsable string: ValueError is caught — warning, early return.
* MIN parses but MAX does not: the CREATE TABLE already ran; strptime(max)
  on line 196 sits outside the try block — fatal, empty table left. -/
def dateStage (gi : List GameInfoRow) : DateStage :=
  match minDateVal gi, maxDateVal gi with
  | Value.vNull, _ => DateStage.fatalNoTable
  | Value.vInt mn, Value.vInt mx => DateStage.ok (dateLoop (tsToOrd mn) (tsToOrd mx))
  | Value.vInt _, _ => DateStage.fatalNoTable
  | Value.vStr s, mx =>
    match parseISO s with
    | none => DateStage.warned
    | some mnOrd =>
      match mx with
      | Value.vStr s2 =>
        match parseISO s2 with
        | some mxOrd => DateStage.ok (dateLoop mnOrd mxOrd)
        | none => DateStage.fatalEmptyTable
      | _ => DateStage.fatalEmptyTable

/-! The fact builders. -/

/-- The row produced by the FactBatting SELECT for a batting row joined to
its gameinfo row; the role flags use CASE WHEN x = 1 THEN 1 ELSE 0 END. -/
def mkFactBatting (b : BattingRow) (g : GameInfoRow) : FactBattingRow :=
  { game_id := b.gid
    player_id := b.id
    team_id := b.team
    game_date := g.date
    plate_appearances := b.b_pa
    at_bats := b.b_ab
    runs := b.b_r
    hits := b.b_h
    doubles := b.b_d
    triples := b.b_t
    home_runs := b.b_hr
    rbi := b.b_rbi
    sacrifice_hits := b.b_sh
    sacrifice_flies := b.b_sf
    hit_by_pitch := b.b_hbp
    walks := b.b_w
    intentional_walks := b.b_iw
    strikeouts := b.b_k
    stolen_bases := b.b_sb
    caught_stealing := b.b_cs
    grounded_into_double_plays := b.b_gdp
    catcher_interference := b.b_xi
    reached_on_error := b.b_roe
    is_dh := if b.dh = some 1 then 1 else 0
    is_pinch_hitter := if b.ph = some 1 then 1 else 0
    is_pinch_runner := if b.pr = some 1 then 1 else 0 }

/-- FactBatting: batting INNER JOIN gameinfo ON gid. -/
def factBattingRows (bat : List BattingRow) (gi : List GameInfoRow) :
    List FactBattingRow :=
  bat.flatMap (fun b =>
    (gi.filter (fun g => g.gid == b.gid)).map (fun g => mkFactBatting b g))

/-- The row produced by the FactPitching SELECT. -/
def mkFactPitching (p : PitchingRow) (g : GameInfoRow) : FactPitchingRow :=
  { game_id := p.gid
    player_id := p.id
    team_id := p.team
    game_date := g.date
    outs_recorded := p.p_ipouts
    batters_faced := p.p_bfp
    hits_allowed := p.p_h
    runs_allowed := p.p_r
    earned_runs := p.p_er
    walks_allowed := p.p_w
    intentional_walks_allowed := p.p_iw
    strikeouts := p.p_k
    hit_batters := p.p_hbp
    wild_pitches := p.p_wp
    balks := p.p_bk
    sacrifice_hits_allowed := p.p_sh
    sacrifice_flies_allowed := p.p_sf
    home_runs_allowed := p.p_hr
    is_winning_pitcher := if p.wp = some 1 then 1 else 0
    is_losing_pitcher := if p.lp = some 1 then 1 else 0
    is_save := if p.save = some 1 then 1 else 0 }

/-- FactPitching: pitching INNER JOIN gameinfo ON gid. -/
def factPitchingRows (pit : List PitchingRow) (gi : List GameInfoRow) :
    List FactPitchingRow :=
  pit.flatMap (fun p =>
    (gi.filter (fun g => g.gid == p.gid)).map (fun g => mkFactPitching p g))

/-- The row produced by the FactGameOutcomes SELECT: win/tie flags from a
direct comparison of the run totals. -/
def mkOutcome (g : GameInfoRow) : FactGameOutcomesRow :=
  { game_id := g.gid
    game_date := g.date
    season := g.season
    visiting_team_id := g.visteam
    home_team_id := g.hometeam
    visiting_runs := g.vruns
    home_runs := g.hruns
    visiting_win := if g.hruns < g.vruns then 1 else 0
    home_win := if g.vruns < g.hruns then 1 else 0
    tie := if g.vruns = g.hruns then 1 else 0
    game_duration_minutes := g.timeofgame
    attendance := g.attendance }

/-- FactGameOutcomes: one row per gameinfo row. -/
def factGameOutcomesRows (gi : List GameInfoRow) : List FactGameOutcomesRow :=
  gi.map mkOutcome

/-- What one call of build_data_warehouse leaves behind: the store, the
reported missing source tables (empty when the verify step passed), and
whether the fact build, index build and count-verification stages were
reached. (Indexes and counts read or create no row data, so they leave no
trace in the store itself.) -/
structure BuildResult where
  db : DB
  missing : List String
  factsRan : Bool
  indexesRan : Bool
  countsRan : Bool
deriving DecidableEq

/-- The successful-verify path of build_data_warehouse: drop and recreate
the dimensions (the date stage may warn or raise), then — unless the date
stage raised — drop and recreate the facts, build indexes, verify counts. -/
def buildCore (db : DB) : BuildResult :=
  let gi := db.gameinfo.getD []
  let bat := db.batting.getD []
  let pit := db.pitching.getD []
  let ap := db.allplayers.getD []
  let ts := db.teamstats.getD []
  let fld := db.fielding.getD []
  let ds := dateStage gi
  let fatal : Bool :=
    match ds with
    | DateStage.fatalNoTable => true
    | DateStage.fatalEmptyTable => true
    | _ => false
  let db1 : DB :=
    { db with
      dimPlayer := some (dimPlayerRows ap)
      dimTeam := some (dimTeamRows ap gi ts bat pit fld)
      dimGame := some (dimGameRows gi)
      dimDate :=
        match ds with
        | DateStage.ok rows => some rows
        | DateStage.warned => none
        | DateStage.fatalNoTable => none
        | DateStage.fatalEmptyTable => some [] }
  if fatal then
    { db := db1, missing := [], factsRan := false, indexesRan := false,
      countsRan := false }
  else
    { db :=
        { db1 with
          factBatting := some (factBattingRows bat gi)
          factPitching := some (factPitchingRows pit gi)
          factGameOutcomes := some (factGameOutcomesRows gi) }
      missing := [], factsRan := true, indexesRan := true, countsRan := true }

/-- build_data_warehouse: verify the six required source tables, aborting
with the list of missing names before any destructive statement; otherwise
run the build stages. -/
def buildDataWarehouse (db : DB) : BuildResult :=
  if (missingTables db).isEmpty then buildCore db
  else
    { db := db, missing := missingTables db, factsRan := false,
      indexesRan := false, countsRan := false }

/-! The read-query surface of 1.4_InitializeDW.py. -/

/-- ASCII-lowercased character code, for case-insensitive comparison. -/
def lowerCode (c : Char) : Nat :=
  if 65 ≤ c.toNat && c.toNat ≤ 90 then c.toNat + 32 else c.toNat

/-- Whether the first code list is a leading run of the second. -/
def listLeads : List Nat → List Nat → Bool
  | [], _ => true
  | _ :: _, [] => false
  | a :: as, b :: bs => a == b && listLeads as bs

/-- SQL LIKE with wildcards on both ends: case-insensitive (ASCII) substring
test, as SQLite's default LIKE behaves. -/
def likeContains (hay pat : String) : Bool :=
  let h := hay.toList.map lowerCode
  let p := pat.toList.map lowerCode
  (List.range (h.length + 1)).any (fun i => listLeads p (h.drop i))

/-- Whether a string is a zero-padded ISO calendar date, the shape on which
SQLite's strftime year extraction succeeds. -/
def isoShaped (s : String) : Bool :=
  match s.toList with
  | [a, b, c, d, e, f, g, h2, i, j] =>
    a.isDigit && b.isDigit && c.isDigit && d.isDigit && e = '-' &&
      f.isDigit && g.isDigit && h2 = '-' && i.isDigit && j.isDigit
  | _ => false

/-- strftime of the year field applied to a stored game_date value: the
leading four characters of a well-shaped ISO text date, NULL otherwise
(non-ISO text yields NULL; numeric julian-day inputs are out of the data's
range of use and abstracted to NULL). -/
def sqlYearOf (v : Value) : Option String :=
  match v with
  | Value.vStr s => if isoShaped s then some (s.take 4) else none
  | _ => none

/-- SQLite ROUND: round half away from zero to an integer. -/
def roundAway (q : Rat) : Int :=
  if 0 ≤ q then (q + 1 / 2).floor else -((-q + 1 / 2).floor)

/-- SQLite ROUND(x, 3). -/
def round3 (q : Rat) : Rat :=
  (roundAway (q * 1000) : Rat) / 1000

/-- A result row of query_player_stats. -/
structure PlayerStatsRow where
  player_name : String
  batting_hand : String
  pa : Int
  ab : Int
  h : Int
  hr : Int
  rbi : Int
  sb : Int
  avg : Option Rat
deriving DecidableEq

/-- query_player_stats: guard on FactBatting existing, then join DimPlayer
to FactBatting, apply the optional name-substring and season filters, group
by player_id, aggregate, order by total hits descending, take the limit.
A missing DimPlayer makes the joined query error; execute_query swallows
the error and the function returns the empty list. -/
def queryPlayerStats (db : DB) (pname : Option String) (season : Option Int)
    (limit : Nat) : List PlayerStatsRow :=
  match db.factBatting with
  | none => []
  | some fb =>
    match db.dimPlayer with
    | none => []
    | some dp =>
      let joined : List (DimPlayerRow × FactBattingRow) := dp.flatMap (fun p =>
        (fb.filter (fun b => b.player_id == p.player_id)).map (fun b => (p, b)))
      let f1 : List (DimPlayerRow × FactBattingRow) :=
        match pname with
        | some nf => joined.filter (fun pb => likeContains pb.1.player_name nf)
        | none => joined
      let f2 : List (DimPlayerRow × FactBattingRow) :=
        match season with
        | some y =>
          f1.filter (fun pb => sqlYearOf pb.2.game_date == some (toString y))
        | none => f1
      let pids := (f2.map (fun pb => pb.1.player_id)).dedup
      let grouped : List PlayerStatsRow := pids.map (fun pid =>
        let grp := f2.filter (fun pb => pb.1.player_id == pid)
        let ab := (grp.map (fun pb => pb.2.at_bats)).sum
        let hits := (grp.map (fun pb => pb.2.hits)).sum
        { player_name := ((grp.head?).map (fun pb => pb.1.player_name)).getD ""
          batting_hand :=
            ((grp.head?).map (fun pb => pb.1.batting_hand)).getD ""
          pa := (grp.map (fun pb => pb.2.plate_appearances)).sum
          ab := ab
          h := hits
          hr := (grp.map (fun pb => pb.2.home_runs)).sum
          rbi := (grp.map (fun pb => pb.2.rbi)).sum
          sb := (grp.map (fun pb => pb.2.stolen_bases)).sum
          avg := if ab = 0 then none
            else some (round3 ((hits : Rat) / (ab : Rat))) })
      (grouped.mergeSort (fun x y => y.h ≤ x.h)).take limit

/-- A result row of query_team_performance. -/
structure TeamPerfRow where
  team_id : String
  games_played : Int
  wins : Int
  losses : Int
  ties : Int
  runs_scored : Int
  runs_allowed : Int
  avg_attendance : Rat
deriving DecidableEq

/-- query_team_performance: guard on FactGameOutcomes existing, then join
DimTeam (restricted to the requested team) to the outcomes it appears in,
apply the optional season filter, group by team_id, aggregate; the first
result row, or `none` when there is none. A missing DimTeam makes the query
error and the function returns `none`. -/
def queryTeamPerformance (db : DB) (team : String) (season : Option Int) :
    Option TeamPerfRow :=
  match db.factGameOutcomes with
  | none => none
  | some fo =>
    match db.dimTeam with
    | none => none
    | some dt =>
      let trs := dt.filter (fun t => t == team)
      let joined : List (String × FactGameOutcomesRow) := trs.flatMap (fun t =>
        (fo.filter (fun g => g.visiting_team_id == t || g.home_team_id == t)).map
          (fun g => (t, g)))
      let f1 : List (String × FactGameOutcomesRow) :=
        match season with
        | some y => joined.filter (fun tg => tg.2.season == y)
        | none => joined
      let tids := (f1.map (fun tg => tg.1)).dedup
      let results : List TeamPerfRow := tids.map (fun tid =>
        let grp := f1.filter (fun tg => tg.1 == tid)
        let att := (grp.map (fun tg => tg.2.attendance)).sum
        { team_id := tid
          games_played := (grp.length : Int)
          wins := (grp.map (fun tg =>
            if (tg.2.visiting_team_id = tid ∧ tg.2.visiting_win = 1) ∨
                (tg.2.home_team_id = tid ∧ tg.2.home_win = 1) then (1 : Int)
            else 0)).sum
          losses := (grp.map (fun tg =>
            if (tg.2.visiting_team_id = tid ∧ tg.2.visiting_win = 0 ∧
                  tg.2.tie = 0) ∨
                (tg.2.home_team_id = tid ∧ tg.2.home_win = 0 ∧ tg.2.tie = 0)
            then (1 : Int) else 0)).sum
          ties := (grp.map (fun tg => tg.2.tie)).sum
          runs_scored := (grp.map (fun tg =>
            if tg.2.visiting_team_id = tid then tg.2.visiting_runs
            else tg.2.home_runs)).sum
          runs_allowed := (grp.map (fun tg =>
            if tg.2.visiting_team_id = tid then tg.2.home_runs
            else tg.2.visiting_runs)).sum
          avg_attendance :=
            if grp.length = 0 then 0
            else (roundAway ((att : Rat) / (grp.length : Rat)) : Rat) })
      results.head?

/-! Helper facts about the embedding, shared by several claims. -/

/-- A default gameinfo row used to write concrete stores compactly. -/
def gBase : GameInfoRow :=
  { gid := "G1", date := Value.vStr "2021-03-01", season := 2021
    site := "S", gametype := "regular", daynight := "day", usedh := "true"
    innings := 9, tiebreaker := "", htbf := "false", timeofgame := 180
    attendance := 100, fieldcond := "", precip := "", sky := "", temp := 70
    winddir := "", windspeed := 5, forfeit := "", suspend := ""
    vruns := 0, hruns := 0, wteam := "", lteam := "", visteam := "VIS"
    hometeam := "HOM" }

/-- An empty warehouse store. -/
def dbEmpty : DB :=
  { gameinfo := none, batting := none, pitching := none, allplayers := none
    teamstats := none, fielding := none, dimPlayer := none, dimTeam := none
    dimGame := none, dimDate := none, factBatting := none
    factPitching := none, factGameOutcomes := none }

/-! Claim C1: the FactGameOutcomes flags. -/

/-- C1: every row of FactGameOutcomes has exactly one of
visiting_win, home_win, tie set to 1 and the other two 0, and which one is
set is fully determined by comparing visiting_runs to home_runs. -/
theorem factGameOutcomes_exactlyOneFlag (gi : List GameInfoRow)
    (r : FactGameOutcomesRow) (hr : r ∈ factGameOutcomesRows gi) :
    ((r.visiting_win = 1 ∧ r.home_win = 0 ∧ r.tie = 0) ↔
      r.home_runs < r.visiting_runs) ∧
    ((r.home_win = 1 ∧ r.visiting_win = 0 ∧ r.tie = 0) ↔
      r.visiting_runs < r.home_runs) ∧
    ((r.tie = 1 ∧ r.visiting_win = 0 ∧ r.home_win = 0) ↔
      r.visiting_runs = r.home_runs) ∧
    r.visiting_win + r.home_win + r.tie = 1 := by
  obtain ⟨g, _, rfl⟩ := List.mem_map.mp hr
  simp only [mkOutcome]
  split_ifs <;> simp_all <;> omega

/-- Witness for C1: a concrete one-game source evaluated through the
theorem. -/
theorem factGameOutcomes_exactlyOneFlag_witness :
    mkOutcome { gBase with vruns := 3, hruns := 5 } ∈
      factGameOutcomesRows [{ gBase with vruns := 3, hruns := 5 }] ∧
    (mkOutcome { gBase with vruns := 3, hruns := 5 }).home_win = 1 := by
  refine ⟨by simp [factGameOutcomesRows], ?_⟩
  have h := factGameOutcomes_exactlyOneFlag
    [{ gBase with vruns := 3, hruns := 5 }]
    (mkOutcome { gBase with vruns := 3, hruns := 5 })
    (by simp [factGameOutcomesRows])
  exact (h.2.1.mpr (by decide)).1

/-! Claim C6: the DimTeam identifier set. -/

/-- C6: the team_id values of DimTeam are exactly the set union of the team
identifiers of the seven contributing columns of the six source relations,
with no duplicates. -/
theorem dimTeam_setUnion (ap : List AllPlayersRow) (gi : List GameInfoRow)
    (ts : List TeamStatsRow) (bat : List BattingRow) (pit : List PitchingRow)
    (fld : List FieldingRow) :
    (dimTeamRows ap gi ts bat pit fld).Nodup ∧
    ∀ t : String, t ∈ dimTeamRows ap gi ts bat pit fld ↔
      ((∃ a ∈ ap, a.team = t) ∨ (∃ g ∈ gi, g.visteam = t) ∨
        (∃ g ∈ gi, g.hometeam = t) ∨ (∃ x ∈ ts, x.team = t) ∨
        (∃ b ∈ bat, b.team = t) ∨ (∃ p ∈ pit, p.team = t) ∨
        (∃ f ∈ fld, f.team = t)) := by
  refine ⟨List.nodup_dedup _, fun t => ?_⟩
  simp [dimTeamRows, List.mem_dedup, eq_comm]

/-! Claim C9: reads against an unbuilt warehouse. -/

/-- C9: each read query guards on its own required fact table
independently — whenever FactBatting is absent, query_player_stats returns
the empty list, and whenever FactGameOutcomes is absent,
query_team_performance returns no row, regardless of the other tables'
state. -/
theorem queries_absentFactTables (db : DB) (pn : Option String)
    (se se2 : Option Int) (lim : Nat) (tm : String) :
    (db.factBatting = none → queryPlayerStats db pn se lim = []) ∧
    (db.factGameOutcomes = none → queryTeamPerformance db tm se2 = none) := by
  constructor
  · intro h1
    unfold queryPlayerStats
    rw [h1]
  · intro h2
    unfold queryTeamPerformance
    rw [h2]

/-- A store after a partial build in which only FactGameOutcomes exists. -/
def dbOnlyOutcomes : DB :=
  { dbEmpty with factGameOutcomes := some [] }

/-- A store after a partial build in which only FactBatting exists. -/
def dbOnlyBatting : DB :=
  { dbEmpty with factBatting := some [] }

/-- Witness for C9: two stores, each lacking exactly one required fact
table, evaluated through the theorem — the guard of each query fires
independently of the other table's presence. -/
theorem queries_absentFactTables_witness :
    dbOnlyOutcomes.factBatting = none ∧
    dbOnlyOutcomes.factGameOutcomes = some [] ∧
    queryPlayerStats dbOnlyOutcomes none none 5 = [] ∧
    dbOnlyBatting.factGameOutcomes = none ∧
    dbOnlyBatting.factBatting = some [] ∧
    queryTeamPerformance dbOnlyBatting "ANA" none = none := by
  exact ⟨rfl, rfl,
    (queries_absentFactTables dbOnlyOutcomes none none none 5 "ANA").1 rfl,
    rfl, rfl,
    (queries_absentFactTables dbOnlyBatting none none none 5 "ANA").2 rfl⟩

/-! Claim C4: the missing-source guard. -/

/-- The fixed required-source list of _verify_source_tables. -/
def requiredTables : List String :=
  ["gameinfo", "batting", "pitching", "allplayers", "teamstats", "fielding"]

/-- Whether the named required source relation is absent from the store. -/
def sourceAbsent (db : DB) (n : String) : Bool :=
  if n = "gameinfo" then db.gameinfo.isNone
  else if n = "batting" then db.batting.isNone
  else if n = "pitching" then db.pitching.isNone
  else if n = "allplayers" then db.allplayers.isNone
  else if n = "teamstats" then db.teamstats.isNone
  else if n = "fielding" then db.fielding.isNone
  else false

/-- The missing-name accumulation of the verify loop is exactly the required
list filtered to the absent relations. -/
theorem missingTables_eq_filter (db : DB) :
    missingTables db = requiredTables.filter (fun n => sourceAbsent db n) := by
  obtain ⟨g, b, p, a, t, f, _, _, _, _, _, _, _⟩ := db
  cases g <;> cases b <;> cases p <;> cases a <;> cases t <;> cases f <;> rfl

/-- C4: with any required source table missing, the build changes nothing —
the resulting store is the input store — and reports exactly the names of
the absent required tables. -/
theorem build_missingSourceGuard (db : DB) (h : missingTables db ≠ []) :
    (buildDataWarehouse db).db = db ∧
    (buildDataWarehouse db).missing =
      requiredTables.filter (fun n => sourceAbsent db n) ∧
    (buildDataWarehouse db).factsRan = false := by
  unfold buildDataWarehouse
  rw [if_neg (by simpa [List.isEmpty_iff] using h)]
  exact ⟨rfl, missingTables_eq_filter db, rfl⟩

/-- A store holding everything except the `fielding` source relation. -/
def dbNoFielding : DB :=
  { gameinfo := some [gBase], batting := some [], pitching := some []
    allplayers := some [], teamstats := some [], fielding := none
    dimPlayer := none, dimTeam := none, dimGame := none, dimDate := none
    factBatting := none, factPitching := none, factGameOutcomes := none }

/-- Witness for C4: the build leaves `dbNoFielding` untouched and reports
exactly the one absent name. -/
theorem build_missingSourceGuard_witness :
    missingTables dbNoFielding ≠ [] ∧
    (buildDataWarehouse dbNoFielding).db = dbNoFielding ∧
    (buildDataWarehouse dbNoFielding).missing = ["fielding"] := by
  have h := build_missingSourceGuard dbNoFielding (by decide)
  exact ⟨by decide, h.1, by rw [h.2.1]; decide⟩

/-! Claim C7: uniqueness of player_id in DimPlayer. -/

/-- A roster in which one player identifier carries two distinct attribute
tuples (the batting hand differs across the two rows). -/
def apDup : List AllPlayersRow :=
  [{ id := "p1", first := "A", last := "B", bat := "R", throw := "R",
     team := "T1" },
   { id := "p1", first := "A", last := "B", bat := "L", throw := "R",
     team := "T1" }]

/-- Counterexample to C7 as stated: whole-row DISTINCT keeps both rows of
`apDup`, so DimPlayer holds two distinct rows sharing player_id "p1". -/
theorem dimPlayer_uniqueId_cex :
    ¬ (∀ r1 ∈ dimPlayerRows apDup, ∀ r2 ∈ dimPlayerRows apDup,
        r1 ≠ r2 → r1.player_id ≠ r2.player_id) := by
  decide

/-- C7 amended: when the roster is functional — any two roster rows with the
same id project to the same DimPlayer attribute tuple — distinct DimPlayer
rows have distinct player_id values. -/
theorem dimPlayer_uniqueId_ofFunctional (ap : List AllPlayersRow)
    (h : ∀ a1 ∈ ap, ∀ a2 ∈ ap, a1.id = a2.id → projPlayer a1 = projPlayer a2) :
    ∀ r1 ∈ dimPlayerRows ap, ∀ r2 ∈ dimPlayerRows ap,
      r1 ≠ r2 → r1.player_id ≠ r2.player_id := by
  intro r1 h1 r2 h2 hne heq
  rw [dimPlayerRows, List.mem_dedup] at h1 h2
  obtain ⟨a1, ha1, rfl⟩ := List.mem_map.mp h1
  obtain ⟨a2, ha2, rfl⟩ := List.mem_map.mp h2
  exact hne (h a1 ha1 a2 ha2 heq)

/-- A functional two-player roster: each id occurs once. -/
def apOk : List AllPlayersRow :=
  [{ id := "p1", first := "A", last := "B", bat := "R", throw := "R",
     team := "T1" },
   { id := "p2", first := "C", last := "D", bat := "L", throw := "L",
     team := "T1" }]

/-- Witness for the amended C7: the functional roster `apOk`. -/
theorem dimPlayer_uniqueId_ofFunctional_witness :
    (∀ a1 ∈ apOk, ∀ a2 ∈ apOk,
      AllPlayersRow.id a1 = AllPlayersRow.id a2 →
        projPlayer a1 = projPlayer a2) ∧
    ∀ r1 ∈ dimPlayerRows apOk, ∀ r2 ∈ dimPlayerRows apOk,
      r1 ≠ r2 → r1.player_id ≠ r2.player_id := by
  exact ⟨by decide, dimPlayer_uniqueId_ofFunctional _ (by decide)⟩

/-! Claim C2: the DimDate generation loop. -/

/-- The generated row of a day carries that day as its date. -/
theorem mkDateRow_date (ord : Nat) : (mkDateRow ord).date = ord := rfl

/-- The insertion loop enumerates exactly the consecutive ordinals from the
start to the end date. -/
theorem dateLoop_eq_map_range' :
    ∀ n cur last, last + 1 - cur = n →
      dateLoop cur last = (List.range' cur n).map mkDateRow := by
  intro n
  induction n with
  | zero =>
    intro cur last h
    rw [dateLoop, dif_neg (by omega)]
    rfl
  | succ k ih =>
    intro cur last h
    rw [dateLoop, dif_pos (by omega), List.range'_succ, List.map_cons,
      ih (cur + 1) last (by omega)]

/-- C2: for valid bounds (min ≤ max, as the MIN/MAX of one column), the
DimDate loop inserts exactly (max − min) + 1 rows, one per consecutive
calendar day, with no duplicates and no gaps; each row's day_of_week is 0
exactly on Mondays (anchored at the real-world Monday 2024-01-01) and its
season_period is "Regular" exactly when the row's month lies in [3, 10],
"Offseason" otherwise. -/
theorem dimDate_contiguous (minOrd maxOrd : Nat) (h : minOrd ≤ maxOrd) :
    (dateLoop minOrd maxOrd).length = maxOrd - minOrd + 1 ∧
    (dateLoop minOrd maxOrd).map DateRow.date =
      List.range' minOrd (maxOrd - minOrd + 1) ∧
    ((dateLoop minOrd maxOrd).map DateRow.date).Nodup ∧
    ∀ r ∈ dateLoop minOrd maxOrd,
      (r.day_of_week = 0 ↔ isMonday r.date) ∧
      (r.season_period =
        if 3 ≤ r.month ∧ r.month ≤ 10 then "Regular" else "Offseason") := by
  have hrange := dateLoop_eq_map_range' (maxOrd + 1 - minOrd) minOrd maxOrd rfl
  have hn : maxOrd + 1 - minOrd = maxOrd - minOrd + 1 := by omega
  rw [hn] at hrange
  have hdates : (dateLoop minOrd maxOrd).map DateRow.date =
      List.range' minOrd (maxOrd - minOrd + 1) := by
    rw [hrange, List.map_map]
    have : (DateRow.date ∘ mkDateRow) = id := by
      funext o
      rfl
    rw [this, List.map_id]
  refine ⟨?_, hdates, by rw [hdates]; exact List.nodup_range' _ _, ?_⟩
  · have := congrArg List.length hdates
    simpa using this
  · intro r hr
    rw [hrange] at hr
    obtain ⟨o, _, rfl⟩ := List.mem_map.mp hr
    constructor
    · show weekdayOf o = 0 ↔ isMonday (mkDateRow o).date
      rw [mkDateRow_date]
      unfold weekdayOf isMonday
      have hk : knownMondayOrd % 7 = 1 := by decide
      rw [hk]
      omega
    · show (mkDateRow o).season_period = _
      have hm : (mkDateRow o).month = (toYMD o).2.1 := rfl
      rw [hm]
      show (if 3 ≤ (toYMD o).2.1 && (toYMD o).2.1 ≤ 10 then "Regular"
        else "Offseason") = _
      split_ifs with h1 h2 <;> simp_all

/-- Witness for C2: the example range 2021-03-01 to 2021-03-03. -/
theorem dimDate_contiguous_witness :
    toOrdinal 2021 3 1 ≤ toOrdinal 2021 3 3 ∧
    (dateLoop (toOrdinal 2021 3 1) (toOrdinal 2021 3 3)).length = 3 := by
  have h := dimDate_contiguous (toOrdinal 2021 3 1) (toOrdinal 2021 3 3)
    (by decide)
  refine ⟨by decide, ?_⟩
  rw [h.1]
  decide

/-! Claim C3: the per-group union step of the combiner. -/

/-- Dropping one table leaves lookups of other names unchanged. -/
theorem lookup_dropTableU_ne (a n : String) (db : DBu) (h : a ≠ n) :
    List.lookup a (dropTableU n db) = List.lookup a db := by
  induction db with
  | nil => rfl
  | cons p rest ih =>
    unfold dropTableU at ih ⊢
    by_cases hp : p.1 = n
    · rw [List.filter_cons_of_neg (by simp [hp]), ih]
      have : (a == p.1) = false := by simp [hp, h]
      simp [List.lookup, this]
    · rw [List.filter_cons_of_pos (by simp [hp])]
      by_cases ha : a = p.1
      · simp [List.lookup, ha]
      · have : (a == p.1) = false := by simp [ha]
        simp [List.lookup, this, ih]

/-- Dropping a table removes it from lookups. -/
theorem lookup_dropTableU_self (n : String) (db : DBu) :
    List.lookup n (dropTableU n db) = none := by
  induction db with
  | nil => rfl
  | cons p rest ih =>
    unfold dropTableU at ih ⊢
    by_cases hp : p.1 = n
    · rw [List.filter_cons_of_neg (by simp [hp])]
      exact ih
    · rw [List.filter_cons_of_pos (by simp [hp])]
      have hb : (n == p.1) = false := by
        rw [beq_eq_false_iff_ne]
        exact fun h => hp h.symm
      simp [List.lookup, hb, ih]

/-- Appending a fresh entry makes it visible to lookup. -/
theorem lookup_append_fresh (n : String) (db : DBu) (t : TableU)
    (h : List.lookup n db = none) :
    List.lookup n (db ++ [(n, t)]) = some t := by
  induction db with
  | nil => simp [List.lookup]
  | cons p rest ih =>
    by_cases hp : n = p.1
    · rw [List.cons_append] at *
      simp [List.lookup, hp] at h
    · have hb : (n == p.1) = false := by simp [hp]
      rw [List.cons_append]
      simp only [List.lookup, hb] at h ⊢
      exact ih h

/-- The combined row list is as long as the sum of its inputs. -/
theorem combineGroupRows_length (db : DBu) (members : List String) :
    (combineGroupRows db members).length =
      (members.map (fun t => (rowsOf t db).length)).sum := by
  unfold combineGroupRows
  induction members with
  | nil => rfl
  | cons m rest ih =>
    unfold rowsOf at ih ⊢
    simp [ih]

/-- C3: processing a suffix group with at least two members creates the
combined relation under the bare-suffix name; its row count is the sum of
the members' row counts (duplicates preserved), and every member row
appears in it unchanged, extended with the year parsed from the first four
characters of its member's name. -/
theorem combineGroup_spec (db : DBu) (sfx : String) (members : List String)
    (h2 : 2 ≤ members.length) (hni : sfx ∉ members) :
    List.lookup sfx (processGroup db (sfx, members)) =
      some ⟨combineGroupCols (dropTableU sfx db) members,
        combineGroupRows (dropTableU sfx db) members⟩ ∧
    (combineGroupRows (dropTableU sfx db) members).length =
      (members.map (fun t => (rowsOf t db).length)).sum ∧
    ∀ t ∈ members, ∀ r ∈ rowsOf t db,
      r ++ [Value.vInt (yearOf t)] ∈
        combineGroupRows (dropTableU sfx db) members := by
  have hrows : ∀ t ∈ members, rowsOf t (dropTableU sfx db) = rowsOf t db := by
    intro t ht
    unfold rowsOf
    rw [lookup_dropTableU_ne t sfx db (fun he => hni (he ▸ ht))]
  refine ⟨?_, ?_, ?_⟩
  · unfold processGroup
    rw [if_neg (show ¬ (sfx, members).2.length < 2 by
      change ¬ members.length < 2; omega)]
    exact lookup_append_fresh sfx _ _ (lookup_dropTableU_self sfx db)
  · rw [combineGroupRows_length]
    congr 1
    exact List.map_congr_left (fun t ht => by rw [hrows t ht])
  · intro t ht r hr
    exact List.mem_flatMap.mpr
      ⟨t, ht, List.mem_map.mpr ⟨r, by rw [hrows t ht]; exact hr, rfl⟩⟩

/-- A two-member store for the combiner: the 2021 and 2022 stats tables. -/
def dbStats : DBu :=
  [("2021stats", ⟨["a"], [[Value.vInt 1]]⟩),
   ("2022stats", ⟨["a"], [[Value.vInt 2], [Value.vInt 3]]⟩)]

/-- Witness for C3: combining the two stats tables yields 1 + 2 rows and
keeps a tagged copy of an original row. -/
theorem combineGroup_spec_witness :
    2 ≤ (["2021stats", "2022stats"] : List String).length ∧
    "stats" ∉ (["2021stats", "2022stats"] : List String) ∧
    (combineGroupRows (dropTableU "stats" dbStats)
      ["2021stats", "2022stats"]).length = 3 ∧
    [Value.vInt 2, Value.vInt 2022] ∈
      combineGroupRows (dropTableU "stats" dbStats)
        ["2021stats", "2022stats"] := by
  have h := combineGroup_spec dbStats "stats" ["2021stats", "2022stats"]
    (by decide) (by decide)
  refine ⟨by decide, by decide, ?_, ?_⟩
  · rw [h.2.1]
    decide
  · have hm := h.2.2 "2022stats" (by decide) [Value.vInt 2] (by decide)
    have hy : yearOf "2022stats" = 2022 := by decide
    rw [hy] at hm
    simpa using hm

/-! Claim C10: which names the combiner groups. -/

/-- Unpacking membership after one addToGroups step: a member either was
already a member under the same key, or is the newly added name under the
new key. -/
theorem addToGroups_mem (gs : List (String × List String)) (k x : String)
    (key : String) (members : List String)
    (h : (key, members) ∈ addToGroups gs k x) (n : String)
    (hn : n ∈ members) :
    (∃ ms, (key, ms) ∈ gs ∧ n ∈ ms) ∨ (n = x ∧ key = k) := by
  unfold addToGroups at h
  by_cases hex : gs.any (fun g => g.1 == k)
  · rw [if_pos hex] at h
    obtain ⟨g, hg, heq⟩ := List.mem_map.mp h
    by_cases hgk : g.1 = k
    · rw [if_pos (by simp [hgk])] at heq
      obtain ⟨hkey, hmem⟩ := Prod.mk.injEq .. ▸ heq
      subst hmem
      rcases List.mem_append.mp hn with hn2 | hn2
      · exact Or.inl ⟨g.2, by rw [← hkey]; exact hg, hn2⟩
      · exact Or.inr ⟨List.mem_singleton.mp hn2, by rw [← hkey, hgk]⟩
    · rw [if_neg (by simp [hgk])] at heq
      exact Or.inl ⟨members, heq ▸ hg, hn⟩
  · rw [if_neg hex] at h
    rcases List.mem_append.mp h with h2 | h2
    · exact Or.inl ⟨members, h2, hn⟩
    · obtain ⟨hkey, hmem⟩ := Prod.mk.injEq .. ▸ (List.mem_singleton.mp h2)
      subst hkey hmem
      exact Or.inr ⟨List.mem_singleton.mp hn, rfl⟩

/-- Fold invariant behind the grouping loop. -/
theorem suffixGroups_aux (base : List String) :
    ∀ (xs : List String) (acc : List (String × List String)),
      (∀ x ∈ xs, x ∈ base) →
      (∀ key members, (key, members) ∈ acc → ∀ n ∈ members,
        matchesYearPat n = true ∧ n.drop 4 = key ∧ n ∈ base) →
      ∀ key members,
        (key, members) ∈ xs.foldl
          (fun gs n =>
            if matchesYearPat n then addToGroups gs (n.drop 4) n else gs)
          acc →
        ∀ n ∈ members, matchesYearPat n = true ∧ n.drop 4 = key ∧ n ∈ base := by
  intro xs
  induction xs with
  | nil => intro acc _ hacc key members h; exact hacc key members h
  | cons x rest ih =>
    intro acc hsub hacc key members h n hn
    simp only [List.foldl_cons] at h
    refine ih _ (fun y hy => hsub y (List.mem_cons_of_mem _ hy)) ?_
      key members h n hn
    intro key' members' h' n' hn'
    by_cases hx : matchesYearPat x
    · rw [if_pos hx] at h'
      rcases addToGroups_mem _ _ _ _ _ h' n' hn' with ⟨ms, hms, hnms⟩ | ⟨he1, he2⟩
      · exact hacc key' ms hms n' hnms
      · subst he1 he2
        exact ⟨hx, rfl, hsub n' (List.mem_cons_self n' rest)⟩
    · rw [if_neg hx] at h'
      exact hacc key' members' h' n' hn'

/-- C10 amended: every constituent of every suffix group is an original
catalog name whose first four characters are decimal digits followed by at
least one further character, and its grouping key is the name minus that
prefix. (Hence any name not of that shape — in particular a combined
relation's bare-suffix name whose suffix does not itself start with four
digits — is never a constituent; a combined name whose suffix does start
with four digits is re-grouped on a re-run, as the counterexample shows.) -/
theorem suffixGroups_constituents (names : List String) (key : String)
    (members : List String) (hg : (key, members) ∈ suffixGroups names)
    (n : String) (hn : n ∈ members) :
    matchesYearPat n = true ∧ n.drop 4 = key ∧ n ∈ names := by
  rw [suffixGroups] at hg
  exact suffixGroups_aux names names [] (fun x hx => hx) (by simp)
    key members hg n hn

/-- Witness for the amended C10: the concrete stats catalog. -/
theorem suffixGroups_constituents_witness :
    ("stats", ["2021stats", "2022stats"]) ∈
      suffixGroups (dbStats.map (fun p => p.1)) ∧
    "2021stats" ∈ (["2021stats", "2022stats"] : List String) ∧
    matchesYearPat "2021stats" = true ∧
    "2021stats".drop 4 = "stats" ∧
    "2021stats" ∈ dbStats.map (fun p => p.1) := by
  have h := suffixGroups_constituents (dbStats.map (fun p => p.1)) "stats"
    ["2021stats", "2022stats"] (by decide) "2021stats" (by decide)
  exact ⟨by decide, by decide, h.1, h.2.1, h.2.2⟩

/-- A catalog on which a first combiner run creates the table "2222x",
whose name itself starts with four digits. -/
def cexDb : DBu :=
  [("11112222x", ⟨["a"], [[Value.vStr "r1"]]⟩),
   ("33332222x", ⟨["a"], [[Value.vStr "r2"]]⟩),
   ("5555x", ⟨["a"], [[Value.vStr "r3"]]⟩)]

/-- Counterexample to C10 as stated: the first run creates the combined
relation "2222x" (absent before, present after); on the catalog left by
that run the grouping treats "2222x" — a bare-suffix name of a combined
relation — as a constituent of the group "x", so a re-run does not derive
only from original year-prefixed relations. -/
theorem combiner_regroups_combined_cex :
    List.lookup "2222x" cexDb = none ∧
    (List.lookup "2222x" (combineTables cexDb)).isSome = true ∧
    ("x", ["5555x", "2222x"]) ∈
      suffixGroups ((combineTables cexDb).map (fun p => p.1)) ∧
    matchesYearPat "2222x" = true := by
  decide

/-! Claim C8: failure handling of the DimDate bounds. -/

/-- A store whose six sources exist but whose gameinfo is empty, so both
date bounds are NULL (missing). -/
def dbNullBounds : DB :=
  { gameinfo := some [], batting := some [], pitching := some []
    allplayers := some [], teamstats := some [], fielding := some []
    dimPlayer := none, dimTeam := none, dimGame := none, dimDate := none
    factBatting := none, factPitching := none, factGameOutcomes := none }

/-- Counterexample to C8 as stated: with missing (NULL) date bounds the
failure is fatal, not a warning — the fact, index and count stages do not
run (FactBatting is left absent instead of being rebuilt). -/
theorem dimDate_missingBounds_fatal_cex :
    missingTables dbNullBounds = [] ∧
    minDateVal (dbNullBounds.gameinfo.getD []) = Value.vNull ∧
    (buildDataWarehouse dbNullBounds).db.dimDate = none ∧
    (buildDataWarehouse dbNullBounds).factsRan = false ∧
    (buildDataWarehouse dbNullBounds).indexesRan = false ∧
    (buildDataWarehouse dbNullBounds).countsRan = false ∧
    (buildDataWarehouse dbNullBounds).db.factBatting = none := by
  decide

/-- C8 amended: when the minimum bound is a string the expected format does
not parse, the DimDate build aborts with a caught warning, leaves no
DimDate table, and the fact, index and count-verification stages still
run. (Missing NULL bounds, an integer minimum with a non-integer maximum,
or an unparsable maximum bound instead raise uncaught and abort those
stages.) -/
theorem dimDate_warn_nonfatal (db : DB) (s : String)
    (hm : (missingTables db).isEmpty = true)
    (hmin : minDateVal (db.gameinfo.getD []) = Value.vStr s)
    (hbad : parseISO s = none) :
    (buildDataWarehouse db).db.dimDate = none ∧
    (buildDataWarehouse db).factsRan = true ∧
    (buildDataWarehouse db).indexesRan = true ∧
    (buildDataWarehouse db).countsRan = true ∧
    (buildDataWarehouse db).db.factBatting =
      some (factBattingRows (db.batting.getD []) (db.gameinfo.getD [])) ∧
    (buildDataWarehouse db).db.factGameOutcomes =
      some (factGameOutcomesRows (db.gameinfo.getD [])) := by
  have hds : dateStage (db.gameinfo.getD []) = DateStage.warned := by
    unfold dateStage
    rw [hmin]
    simp [hbad]
  unfold buildDataWarehouse
  rw [if_pos hm]
  unfold buildCore
  simp only [hds]
  exact ⟨rfl, rfl, rfl, rfl, rfl, rfl⟩

/-- A store whose minimum game date is the unparsable text "03/01/2021". -/
def dbBadDate : DB :=
  { gameinfo := some [{ gBase with date := Value.vStr "03/01/2021" }]
    batting := some [], pitching := some [], allplayers := some []
    teamstats := some [], fielding := some [], dimPlayer := none
    dimTeam := none, dimGame := none, dimDate := none, factBatting := none
    factPitching := none, factGameOutcomes := none }

/-- Witness for the amended C8: the unparsable-string store evaluated
through the theorem. -/
theorem dimDate_warn_nonfatal_witness :
    (missingTables dbBadDate).isEmpty = true ∧
    minDateVal (dbBadDate.gameinfo.getD []) = Value.vStr "03/01/2021" ∧
    parseISO "03/01/2021" = none ∧
    (buildDataWarehouse dbBadDate).db.dimDate = none ∧
    (buildDataWarehouse dbBadDate).factsRan = true := by
  have h := dimDate_warn_nonfatal dbBadDate "03/01/2021" (by decide)
    (by decide) (by decide)
  exact ⟨by decide, by decide, by decide, h.1, h.2.1⟩

/-! Claim C5: idempotence of the rebuild. -/

/-- The build never rewrites the six source relations. -/
theorem buildCore_preserves_sources (db : DB) :
    (buildCore db).db.gameinfo = db.gameinfo ∧
    (buildCore db).db.batting = db.batting ∧
    (buildCore db).db.pitching = db.pitching ∧
    (buildCore db).db.allplayers = db.allplayers ∧
    (buildCore db).db.teamstats = db.teamstats ∧
    (buildCore db).db.fielding = db.fielding := by
  unfold buildCore
  cases hds : dateStage (db.gameinfo.getD []) <;> simp [hds]

/-- Rebuilding the store a build produced reproduces it exactly. -/
theorem buildCore_stable (db : DB) :
    buildCore ((buildCore db).db) = buildCore db := by
  unfold buildCore
  cases hds : dateStage (db.gameinfo.getD []) <;> simp [hds]

/-- C5: running the full build twice against unchanged sources yields the
same result as running it once — the same produced tables with the same
contents, the same report, the same stages run. -/
theorem build_idempotent (db : DB) :
    buildDataWarehouse ((buildDataWarehouse db).db) = buildDataWarehouse db := by
  by_cases h : (missingTables db).isEmpty
  · have hsrc := buildCore_preserves_sources db
    have hmiss : missingTables (buildCore db).db = missingTables db := by
      unfold missingTables
      rw [hsrc.1, hsrc.2.1, hsrc.2.2.1, hsrc.2.2.2.1, hsrc.2.2.2.2.1,
        hsrc.2.2.2.2.2]
    unfold buildDataWarehouse
    rw [if_pos h, hmiss, if_pos h]
    exact buildCore_stable db
  · unfold buildDataWarehouse
    rw [if_neg h]
    rw [if_neg h]

end Baseball
